import Mathlib

/-!
Shallow embedding of the graded-encoding wrapper layer of the
indistinguishability-obfuscation repository.

Two coexisting variants of the wrapper are embedded:

* namespace `Wrapper` — `src/wrapper/wrapper.pyx`, which uses the asymmetric
  secret-key interface of the native gghlite library declared in
  `src/unnamed/part_001` (`gghlite_sk_t`, `gghlite_enc_set_gghlite_clr`,
  `gghlite_enc_mul`, ...);
* namespace `Alt` — `src/unnamed/part_000`, which uses the symmetric
  public-key interface declared in `src/wrapper/gghlite.pxd`
  (`gghlite_pk_t`, `gghlite_sample`, `gghlite_mul`, ...).

The native gghlite library itself is external to the repository; its
behaviour is modelled from the interface declarations shipped in the source
(`gghlite.pxd`, `part_001`) and from the specification's description of the
primitive engine (parameter generation, leveled encode, homomorphic
add/sub/multiply, sample, zero-test).  An encoding is modelled by the
plaintext residue it carries, its level tag (a multiset of group indices in
the asymmetric variant, a single integer in the symmetric one) and a
`nonce` standing for the representation randomness: two encodings are
bit-identical exactly when they are equal as structures.
-/

/-- Model of a flint randomness state (`flint_rand_t`): the seed it was
initialised from and a counter of how many draws have been made. -/
structure RandState where
  seed : Nat
  counter : Nat
deriving DecidableEq

/-- Modelled from the spec: `flint_randinit_seed(randstate, seed, gmp)`
deterministically initialises the randomness state from `seed`. -/
def flint_randinit_seed (seed : Nat) (gmp : Nat) : RandState :=
  { seed := seed, counter := gmp - gmp }

/-- Modelled from the spec: one draw from the randomness state; deterministic
in the state and advancing it. -/
def randNext (rs : RandState) : Nat × RandState :=
  (rs.seed + rs.counter + 1, { seed := rs.seed, counter := rs.counter + 1 })

namespace Wrapper

/-- Native public parameters (`gghlite_params_t` of `part_001`): security
parameter, multilinearity degree, derived plaintext modulus and flag set. -/
structure gghlite_params_t where
  lamb : Nat
  kappa : Nat
  p : Int
  flags : Nat
deriving DecidableEq

/-- Native secret-key instance (`gghlite_sk_t` of `part_001`): the public
parameters together with the secret key material generated alongside them. -/
structure gghlite_sk_t where
  params : gghlite_params_t
  secret : Nat
deriving DecidableEq

/-- Semantic model of a native encoding (`gghlite_enc_t` of `part_001`):
the plaintext residue it encodes, its level tag — the multiset of group
indices consumed, as a list (asymmetric grading) — and the representation
randomness.  Structural equality is bit-identity of representations. -/
structure gghlite_enc_t where
  val : Int
  lvl : List Nat
  nonce : Nat
deriving DecidableEq

/-- Modelled from the spec: the plaintext modulus the primitive engine
derives during parameter generation, a function of the security parameter,
the degree and the randomness drawn (the engine is external; only that the
derivation is deterministic and yields a modulus greater than one is used). -/
def derive_p (lamb kappa r : Nat) : Int :=
  Int.ofNat (lamb + kappa + r + 2)

/-- Modelled from the spec: `gghlite_init(self, lamb, kappa, rerand_mask,
flags, randstate)` — one-time parameter generation by the external engine,
consuming randomness and producing the secret-key instance (public
parameters plus secret key material). -/
def gghlite_init (lamb kappa rerand_mask flags : Nat) (rs : RandState) :
    gghlite_sk_t × RandState :=
  let (r, rs') := randNext rs
  ({ params :=
      { lamb := lamb, kappa := kappa
        p := derive_p lamb kappa (r + rerand_mask - rerand_mask)
        flags := flags }
     secret := r + 1 }, rs')

/-- `gghlite_params_ref(rop, op)`: shallow copy of the public parameters of
a secret-key instance. -/
def gghlite_params_ref (sk : gghlite_sk_t) : gghlite_params_t :=
  sk.params

/-- `gghlite_sk_get_p(self, p)`: read the derived plaintext modulus. -/
def gghlite_sk_get_p (sk : gghlite_sk_t) : Int :=
  sk.params.p

/-- Modelled from the spec: `gghlite_enc_set_gghlite_clr(rop, self, f, k, i,
rerand, randstate)` — encode the constant polynomial `f` at level `k` in
group `G_i`; when `rerand` is nonzero the representation is re-randomised
from the randstate, otherwise the canonical deterministic representation is
produced and the randstate is left untouched. -/
def gghlite_enc_set_gghlite_clr (sk : gghlite_sk_t) (f : Int) (k i : Nat)
    (rerand : Nat) (rs : RandState) : gghlite_enc_t × RandState :=
  if rerand ≠ 0 then
    let (r, rs') := randNext rs
    ({ val := f % sk.params.p, lvl := List.replicate k i, nonce := r }, rs')
  else
    ({ val := f % sk.params.p, lvl := List.replicate k i, nonce := 0 }, rs)

/-- Modelled from the spec: native homomorphic multiply `gghlite_enc_mul`;
plaintexts multiply modulo p, the level tags of the operands combine, the
representation is a deterministic function of the operand representations.
The native call performs no level checking of its own. -/
def gghlite_enc_mul (prm : gghlite_params_t) (f g : gghlite_enc_t) :
    gghlite_enc_t :=
  { val := (f.val * g.val) % prm.p, lvl := f.lvl ++ g.lvl
    nonce := f.nonce + g.nonce }

/-- Modelled from the spec: native homomorphic add `gghlite_enc_add`;
plaintexts add modulo p at the (common) level of the operands.  The native
call performs no level checking of its own. -/
def gghlite_enc_add (prm : gghlite_params_t) (f g : gghlite_enc_t) :
    gghlite_enc_t :=
  { val := (f.val + g.val) % prm.p, lvl := f.lvl
    nonce := f.nonce + g.nonce }

/-- Modelled from the spec: native homomorphic subtract `gghlite_enc_sub`. -/
def gghlite_enc_sub (prm : gghlite_params_t) (f g : gghlite_enc_t) :
    gghlite_enc_t :=
  { val := (f.val - g.val) % prm.p, lvl := f.lvl
    nonce := f.nonce + g.nonce }

/-- Modelled from the spec: native zero-test `gghlite_enc_is_zero` — returns
1 iff the encoding carries the zero residue. -/
def gghlite_enc_is_zero (prm : gghlite_params_t) (f : gghlite_enc_t) : Bool :=
  f.val % prm.p == 0

/-- The fixed flag set hardcoded in `Encoded_Parent.__init__` of
`wrapper.pyx` (`GDDH_HARD | VERBOSE | GOOD_G_INV | ASYMMETRIC`); the numeric
values of the external enum are modelled as distinct bits. -/
def wrapperFlags : Nat := 4 + 2 + 32 + 8

/-- `Encoded_Parent` of `wrapper.pyx`: the cdef members `kappa`, `lamb`,
`p`, `params`, `randstate` and `instance` (the retained secret-key
instance, field `inst` here since `instance` is reserved in Lean), plus the
base ring handed to `Ring.__init__`. -/
structure Encoded_Parent where
  base : Nat
  kappa : Nat
  lamb : Nat
  p : Int
  params : gghlite_params_t
  randstate : RandState
  inst : gghlite_sk_t
deriving DecidableEq

/-- `Encoded_Parent.__init__(self, base, kappa, lamb=20, seed=0)` of
`wrapper.pyx`: stores `kappa` and `lamb` without any validation, seeds the
randstate, runs the engine's parameter generation with `rerand_mask = 1`
and the fixed flag set, takes a reference to the public parameters and
reads the modulus `p`.  The `gghlite_sk_clear` call is commented out in the
source, so the secret-key instance is stored in the returned object. -/
def Encoded_Parent.init (base kappa lamb seed : Nat) : Encoded_Parent :=
  let rs0 := flint_randinit_seed seed 1
  let (inst, rs1) := gghlite_init lamb kappa 1 wrapperFlags rs0
  { base := base, kappa := kappa, lamb := lamb
    p := gghlite_sk_get_p inst
    params := gghlite_params_ref inst
    randstate := rs1
    inst := inst }

/-- `Encoded_Parent.getP` of `wrapper.pyx`. -/
def Encoded_Parent.getP (prnt : Encoded_Parent) : Int :=
  prnt.p

/-- The native lifecycle calls reachable from the two `__init__` bodies. -/
inductive NativeCall where
  | flint_randinit_seed
  | gghlite_init
  | gghlite_params_ref
  | gghlite_sk_get_p
  | gghlite_sk_clear
  | gghlite_pk_ref
  | gghlite_clear
deriving DecidableEq

/-- The sequence of native calls made by `Encoded_Parent.__init__` of
`wrapper.pyx`, in source order.  The `gghlite_sk_clear(instance, 0)` call
present in the source is commented out and therefore absent. -/
def Encoded_Parent.initCalls : List NativeCall :=
  [NativeCall.flint_randinit_seed, NativeCall.gghlite_init,
   NativeCall.gghlite_params_ref, NativeCall.gghlite_sk_get_p]

/-- `Encoded_Element` of `wrapper.pyx`: the `_parent` back-reference set by
`RingElement.__init__` / `_new_c`, and the native encoding `value`. -/
structure Encoded_Element where
  parentRef : Encoded_Parent
  value : gghlite_enc_t
deriving DecidableEq

/-- `Encoded_Element.__init__(self, parent, x=0, level=0)` of `wrapper.pyx`:
no validation of `level` is performed (the source carries the comment
"later assert that level is smaller than kappa!"); the plaintext is encoded
as a constant polynomial at `k = 1` in group `G_level` with `rerand = 0`,
using the parent's retained secret-key instance and randstate.  Returns the
element and the parent's randstate after the call. -/
def Encoded_Element.init (prnt : Encoded_Parent) (x : Int) (level : Nat) :
    Encoded_Element × RandState :=
  let rerand := 0
  let (v, rs') := gghlite_enc_set_gghlite_clr prnt.inst x 1 level rerand
    prnt.randstate
  ({ parentRef := prnt, value := v }, rs')

/-- Encoding through the parent with the randstate mutation threaded back
into the parent, as the Cython object mutates `prnt.randstate` in place. -/
def Encoded_Parent.encodeAt (prnt : Encoded_Parent) (x : Int) (level : Nat) :
    Encoded_Element × Encoded_Parent :=
  let (e, rs') := Encoded_Element.init prnt x level
  (e, { prnt with randstate := rs' })

/-- `Encoded_Element._add_` of `wrapper.pyx`: allocates the result under
`self`'s parent and calls the native add with `self`'s parent's params,
with no context or level validation of any kind. -/
def Encoded_Element._add_ (self right : Encoded_Element) : Encoded_Element :=
  { parentRef := self.parentRef
    value := gghlite_enc_add self.parentRef.params self.value right.value }

/-- `Encoded_Element._mul_` of `wrapper.pyx`: allocates the result under
`self`'s parent and calls the native multiply with `self`'s parent's
params, with no context or level validation of any kind. -/
def Encoded_Element._mul_ (self right : Encoded_Element) : Encoded_Element :=
  { parentRef := self.parentRef
    value := gghlite_enc_mul self.parentRef.params self.value right.value }

/-- `Encoded_Element._sub_` of `wrapper.pyx`: allocates the result under
`self`'s parent and calls the native subtract with `self`'s parent's
params, with no context or level validation of any kind. -/
def Encoded_Element._sub_ (self right : Encoded_Element) : Encoded_Element :=
  { parentRef := self.parentRef
    value := gghlite_enc_sub self.parentRef.params self.value right.value }

/-- `Encoded_Element.__nonzero__` of `wrapper.pyx`: the truthiness of an
encoding is the negation of the native zero-test. -/
def Encoded_Element.nonzero (self : Encoded_Element) : Bool :=
  ! gghlite_enc_is_zero self.parentRef.params self.value

/-- A sequence of `Enc(x, level)` calls on one parent, threading the
randstate through as the Cython object does. -/
def encodeSeq : Encoded_Parent → List (Int × Nat) → List Encoded_Element
  | _, [] => []
  | prnt, (x, l) :: rest =>
      let (e, prnt') := prnt.encodeAt x l
      e :: encodeSeq prnt' rest

end Wrapper

namespace Alt

/-- Native public key (`gghlite_pk_t` of `src/wrapper/gghlite.pxd`,
symmetric variant): the public parameters, including the derived modulus. -/
structure gghlite_pk_t where
  lamb : Nat
  kappa : Nat
  p : Int
  flags : Nat
deriving DecidableEq

/-- Native instance (`gghlite_t` of `src/wrapper/gghlite.pxd`): public key
plus the secret key material generated alongside it. -/
structure gghlite_t where
  pk : gghlite_pk_t
  secret : Nat
deriving DecidableEq

/-- Semantic model of an encoding in the symmetric variant: the plaintext
residue, a single integer level, and the representation randomness. -/
structure gghlite_enc_t where
  val : Int
  lvl : Nat
  nonce : Nat
deriving DecidableEq

/-- Modelled from the spec: symmetric-variant `gghlite_init(self, lamb,
kappa, rerand_mask, flags, randstate)` — one-time parameter generation. -/
def gghlite_init (lamb kappa rerand_mask flags : Nat) (rs : RandState) :
    gghlite_t × RandState :=
  let (r, rs') := randNext rs
  ({ pk :=
      { lamb := lamb, kappa := kappa
        p := Wrapper.derive_p lamb kappa (r + rerand_mask - rerand_mask)
        flags := flags }
     secret := r + 1 }, rs')

/-- `gghlite_pk_ref(rop, op)`: reference to the public key of an instance. -/
def gghlite_pk_ref (inst : gghlite_t) : gghlite_pk_t :=
  inst.pk

/-- `gghlite_enc_init(op, self)`: initialise an encoding to zero at level 0
(deterministic canonical representation). -/
def gghlite_enc_init (pk : gghlite_pk_t) : gghlite_enc_t :=
  { val := 0 % pk.p, lvl := 0, nonce := 0 }

/-- Modelled from the spec: `gghlite_sample(rop, self, k, randstate)` —
sample a fresh random encoding at level `k`, drawing from the randstate and
never materialising the corresponding plaintext for the caller. -/
def gghlite_sample (pk : gghlite_pk_t) (k : Nat) (rs : RandState) :
    gghlite_enc_t × RandState :=
  let (r, rs') := randNext rs
  ({ val := Int.ofNat r % pk.p, lvl := k, nonce := r }, rs')

/-- Modelled from the spec: symmetric native add `gghlite_add`; no level
checking of its own. -/
def gghlite_add (pk : gghlite_pk_t) (f g : gghlite_enc_t) : gghlite_enc_t :=
  { val := (f.val + g.val) % pk.p, lvl := f.lvl, nonce := f.nonce + g.nonce }

/-- Modelled from the spec: symmetric native multiply `gghlite_mul`; the
levels of the operands add, no level checking of its own. -/
def gghlite_mul (pk : gghlite_pk_t) (f g : gghlite_enc_t) : gghlite_enc_t :=
  { val := (f.val * g.val) % pk.p, lvl := f.lvl + g.lvl
    nonce := f.nonce + g.nonce }

/-- Modelled from the spec: symmetric native zero-test `gghlite_is_zero`. -/
def gghlite_is_zero (pk : gghlite_pk_t) (f : gghlite_enc_t) : Bool :=
  f.val % pk.p == 0

/-- `Encoded_Parent` of `src/unnamed/part_000`: the cdef members `kappa`,
`lamb`, `publickey` and `randstate`, plus the base ring.  No secret-key
member exists: the instance is a local of `__init__`. -/
structure Encoded_Parent where
  base : Nat
  kappa : Nat
  lamb : Nat
  publickey : gghlite_pk_t
  randstate : RandState
deriving DecidableEq

/-- `Encoded_Parent.__init__(self, base, kappa, lamb=20, seed=0)` of
`part_000`: stores `kappa` and `lamb` without validation, seeds the
randstate, runs parameter generation with `rerand_mask = 1` and
`flags = 0`, takes a reference to the public key and then clears the local
secret-key instance with `gghlite_clear(instance, 0)` before returning, so
only the public key is retained. -/
def Encoded_Parent.init (base kappa lamb seed : Nat) : Encoded_Parent :=
  let rs0 := flint_randinit_seed seed 1
  let (inst, rs1) := gghlite_init lamb kappa 1 0 rs0
  let pk := gghlite_pk_ref inst
  { base := base, kappa := kappa, lamb := lamb
    publickey := pk, randstate := rs1 }

/-- The sequence of native calls made by `Encoded_Parent.__init__` of
`part_000`, in source order; `gghlite_clear` runs after `gghlite_pk_ref`
and before the method returns. -/
def Encoded_Parent.initCalls : List Wrapper.NativeCall :=
  [Wrapper.NativeCall.flint_randinit_seed, Wrapper.NativeCall.gghlite_init,
   Wrapper.NativeCall.gghlite_pk_ref, Wrapper.NativeCall.gghlite_clear]

/-- `Encoded_Element` of `part_000`: parent back-reference and the native
encoding value. -/
structure Encoded_Element where
  parentRef : Encoded_Parent
  value : gghlite_enc_t
deriving DecidableEq

/-- `Encoded_Element.__init__(self, parent, x=0)` of `part_000`: the
encoding is initialised to zero with `gghlite_enc_init` and then
overwritten by `gghlite_sample(..., 0, ...)` — a fresh random encoding at
level 0.  The plaintext argument `x` is never used, and the constructor
takes no level argument.  Returns the element and the parent's randstate
after the call. -/
def Encoded_Element.init (prnt : Encoded_Parent) (x : Int) :
    Encoded_Element × RandState :=
  let e0 := gghlite_enc_init prnt.publickey
  let (v, rs') := gghlite_sample prnt.publickey (e0.lvl - e0.lvl)
    prnt.randstate
  ({ parentRef := prnt, value := v }, rs')

/-- `Encoded_Element._add_` of `part_000`: constructs the result element
(itself a fresh sample) and overwrites it with the native add; no context
or level validation.  The randstate effect of the intermediate construction
is omitted here since the overwritten sample does not reach the result. -/
def Encoded_Element._add_ (self right : Encoded_Element) : Encoded_Element :=
  { parentRef := self.parentRef
    value := gghlite_add self.parentRef.publickey self.value right.value }

/-- `Encoded_Element._mul_` of `part_000`: as `_add_`, with the native
multiply. -/
def Encoded_Element._mul_ (self right : Encoded_Element) : Encoded_Element :=
  { parentRef := self.parentRef
    value := gghlite_mul self.parentRef.publickey self.value right.value }

/-- `Encoded_Element.__nonzero__` of `part_000`: truthiness is the negation
of the native zero-test. -/
def Encoded_Element.nonzero (self : Encoded_Element) : Bool :=
  ! gghlite_is_zero self.parentRef.publickey self.value

end Alt

/-- The parameter context built by `src/wrapper/test.sage`:
`Encoded_Parent(QQ, levels)` with `levels = 5`, default `lamb = 20` and
default `seed = 0` (the base ring QQ is an opaque token here). -/
def testParent : Wrapper.Encoded_Parent :=
  Wrapper.Encoded_Parent.init 0 5 20 0

/-- The end-to-end scenario of `src/wrapper/test.sage`, for plaintexts
`x0..x4` drawn from the plaintext ring `Z/p` (represented by arbitrary
integers reduced mod `p = Enc.getP()`): encode `xi` at level `i`, take the
iterated product `value1`; compute `result` as the product of the
plaintexts in `Z/p`; take `value2 = Enc(result, 0) * Enc(1,1) * Enc(1,2) *
Enc(1,3) * Enc(1,4)`; return `not bool(value1 - value2)`, i.e. the native
zero-test applied to `sub(value1, value2)`.  The randstate is threaded
through the encoding calls in the order the script makes them. -/
def scenarioWorks (x0 x1 x2 x3 x4 : Int) : Bool :=
  let pr0 := testParent
  let p := pr0.getP
  let a0 := x0 % p
  let a1 := x1 % p
  let a2 := x2 % p
  let a3 := x3 % p
  let a4 := x4 % p
  let result := ((((a0 * a1) % p * a2) % p * a3) % p * a4) % p
  let (e0, pr1) := pr0.encodeAt a0 0
  let (e1, pr2) := pr1.encodeAt a1 1
  let (e2, pr3) := pr2.encodeAt a2 2
  let (e3, pr4) := pr3.encodeAt a3 3
  let (e4, pr5) := pr4.encodeAt a4 4
  let value1 := Wrapper.Encoded_Element._mul_
    (Wrapper.Encoded_Element._mul_
      (Wrapper.Encoded_Element._mul_
        (Wrapper.Encoded_Element._mul_ e0 e1) e2) e3) e4
  let (o1, pr6) := pr5.encodeAt 1 1
  let (o2, pr7) := pr6.encodeAt 1 2
  let (o3, pr8) := pr7.encodeAt 1 3
  let (o4, pr9) := pr8.encodeAt 1 4
  let (er, _) := pr9.encodeAt result 0
  let value2 := Wrapper.Encoded_Element._mul_ er
    (Wrapper.Encoded_Element._mul_
      (Wrapper.Encoded_Element._mul_
        (Wrapper.Encoded_Element._mul_ o1 o2) o3) o4)
  let maybe_zero := Wrapper.Encoded_Element._sub_ value1 value2
  ! Wrapper.Encoded_Element.nonzero maybe_zero

/-- Claim C1: end-to-end multiplicative homomorphism scenario — for the
context created with kappa = 5 and for every five plaintexts x0..x4 of the
plaintext ring Z/p, the iterated product of encode(x0,0)..encode(x4,4) and
the iterated product of encode(x0*x1*x2*x3*x4 mod p, 0), encode(1,1),
encode(1,2), encode(1,3), encode(1,4) differ by an encoding of zero: the
zero-test applied to their difference returns true. -/
theorem c1_end_to_end_homomorphism (x0 x1 x2 x3 x4 : Int) :
    scenarioWorks x0 x1 x2 x3 x4 = true := by
  have hmm : ∀ a : Int, a % 28 % 28 = a % 28 := fun a =>
    Int.emod_emod_of_dvd a dvd_rfl
  simp [scenarioWorks, testParent, Wrapper.Encoded_Parent.init,
    Wrapper.Encoded_Parent.getP, Wrapper.Encoded_Parent.encodeAt,
    Wrapper.Encoded_Element.init, Wrapper.Encoded_Element._mul_,
    Wrapper.Encoded_Element._sub_, Wrapper.Encoded_Element.nonzero,
    Wrapper.gghlite_enc_set_gghlite_clr, Wrapper.gghlite_enc_mul,
    Wrapper.gghlite_enc_sub, Wrapper.gghlite_enc_is_zero,
    Wrapper.gghlite_init, Wrapper.gghlite_params_ref,
    Wrapper.gghlite_sk_get_p, Wrapper.derive_p, Wrapper.wrapperFlags,
    flint_randinit_seed, randNext, hmm]

/-- Claim C2 counterexample: on the context with kappa = 1, the two
encodings of 2 and 3 at group 0 have combined level tag of length 2,
exceeding kappa, yet `_mul_` does not fail — it returns a concrete result
encoding (the native product), refuting that multiply on over-kappa
operands always fails with LevelOverflow and never returns a result. -/
theorem c2_multiply_overflow_returns_result :
    (Wrapper.Encoded_Parent.init 0 1 20 0).kappa <
      ((((Wrapper.Encoded_Parent.init 0 1 20 0).encodeAt 2 0).1.value.lvl ++
        (((Wrapper.Encoded_Parent.init 0 1 20 0).encodeAt 2 0).2.encodeAt
          3 0).1.value.lvl).length) ∧
    Wrapper.Encoded_Element._mul_
      ((Wrapper.Encoded_Parent.init 0 1 20 0).encodeAt 2 0).1
      (((Wrapper.Encoded_Parent.init 0 1 20 0).encodeAt 2 0).2.encodeAt
        3 0).1 =
      { parentRef := Wrapper.Encoded_Parent.init 0 1 20 0
        value := { val := 6, lvl := [0, 0], nonce := 0 } } := by
  decide

/-- Claim C2 amended: `_mul_` performs no level validation at all — for
every pair of operands, including those whose combined level tags exceed
the context's kappa, it invokes the native multiply and returns a result
encoding whose value is the product mod p and whose level tag is the
combination of the operands' tags. -/
theorem c2_multiply_unchecked (self right : Wrapper.Encoded_Element) :
    (Wrapper.Encoded_Element._mul_ self right).value.val =
      (self.value.val * right.value.val) % self.parentRef.params.p ∧
    (Wrapper.Encoded_Element._mul_ self right).value.lvl =
      self.value.lvl ++ right.value.lvl ∧
    (Wrapper.Encoded_Element._mul_ self right).parentRef = self.parentRef :=
  ⟨rfl, rfl, rfl⟩

/-- Claim C3 counterexample: two encodings from two different contexts
(different base and seed, hence different parameters) and with different
level tags; `_add_` and `_sub_` do not fail with IncompatibleContext or
LevelMismatch — each returns a concrete result encoding computed by the
native call with the left operand's parameters. -/
theorem c3_add_sub_unchecked_counterexample :
    ((Wrapper.Encoded_Parent.init 0 2 20 0).encodeAt 4 0).1.parentRef ≠
      ((Wrapper.Encoded_Parent.init 1 2 20 7).encodeAt 9 1).1.parentRef ∧
    ((Wrapper.Encoded_Parent.init 0 2 20 0).encodeAt 4 0).1.value.lvl ≠
      ((Wrapper.Encoded_Parent.init 1 2 20 7).encodeAt 9 1).1.value.lvl ∧
    Wrapper.Encoded_Element._add_
      ((Wrapper.Encoded_Parent.init 0 2 20 0).encodeAt 4 0).1
      ((Wrapper.Encoded_Parent.init 1 2 20 7).encodeAt 9 1).1 =
      { parentRef := Wrapper.Encoded_Parent.init 0 2 20 0
        value := { val := 13, lvl := [0], nonce := 0 } } ∧
    Wrapper.Encoded_Element._sub_
      ((Wrapper.Encoded_Parent.init 0 2 20 0).encodeAt 4 0).1
      ((Wrapper.Encoded_Parent.init 1 2 20 7).encodeAt 9 1).1 =
      { parentRef := Wrapper.Encoded_Parent.init 0 2 20 0
        value := { val := 20, lvl := [0], nonce := 0 } } := by
  decide

/-- Claim C3 amended: `_add_` and `_sub_` perform no context or level
validation — for every pair of operands, including operands from different
contexts or with different level tags, they invoke the native add/subtract
with the left operand's parent's parameters and return its result; the
result carries the left operand's level tag (hence the common tag when the
operands' tags agree) and the left operand's parent. -/
theorem c3_add_sub_unchecked (self right : Wrapper.Encoded_Element) :
    (Wrapper.Encoded_Element._add_ self right).value.val =
      (self.value.val + right.value.val) % self.parentRef.params.p ∧
    (Wrapper.Encoded_Element._add_ self right).value.lvl =
      self.value.lvl ∧
    (Wrapper.Encoded_Element._add_ self right).parentRef = self.parentRef ∧
    (Wrapper.Encoded_Element._sub_ self right).value.val =
      (self.value.val - right.value.val) % self.parentRef.params.p ∧
    (Wrapper.Encoded_Element._sub_ self right).value.lvl =
      self.value.lvl ∧
    (Wrapper.Encoded_Element._sub_ self right).parentRef = self.parentRef :=
  ⟨rfl, rfl, rfl, rfl, rfl, rfl⟩

/-- Claim C4, evaluation at the failing input: on the kappa = 5 context,
`Encoded_Element.__init__` with level 7 — outside [0, kappa] — performs no
range check (the source defers it with the comment "later assert that
level is smaller than kappa!") and returns an encoding tagged with group 7
instead of failing with LevelOverflow. -/
theorem c4_encode_out_of_range_returns_encoding :
    testParent.kappa = 5 ∧
    (Wrapper.Encoded_Element.init testParent 1 7).1.value =
      { val := 1, lvl := [7], nonce := 0 } ∧
    (Wrapper.Encoded_Element.init testParent 1 7).1.parentRef =
      testParent := by
  decide

/-- Claim C5 counterexample: creation with kappa = 0 (< 1) and lamb = 0
(not > 0) does not return a ConfigurationError — a Context is produced,
with the invalid kappa and lamb stored and parameters generated. -/
theorem c5_create_invalid_returns_context :
    (Wrapper.Encoded_Parent.init 0 0 0 0).kappa = 0 ∧
    (Wrapper.Encoded_Parent.init 0 0 0 0).lamb = 0 ∧
    (Wrapper.Encoded_Parent.init 0 0 0 0).p = 3 := by
  decide

/-- Claim C5 amended: context creation performs no kappa/lambda validation
in either variant — for every kappa and lambda, including kappa < 1 and
lambda = 0, a Context is constructed carrying exactly the given values,
which are passed unchecked to the native parameter generation. -/
theorem c5_create_unchecked (base kappa lamb seed : Nat) :
    (Wrapper.Encoded_Parent.init base kappa lamb seed).kappa = kappa ∧
    (Wrapper.Encoded_Parent.init base kappa lamb seed).lamb = lamb ∧
    (Alt.Encoded_Parent.init base kappa lamb seed).kappa = kappa ∧
    (Alt.Encoded_Parent.init base kappa lamb seed).lamb = lamb :=
  ⟨rfl, rfl, rfl, rfl⟩

/-- Claim C6 counterexample: in the `wrapper.pyx` variant the
`gghlite_sk_clear` call is commented out — it is absent from the sequence
of native calls made by `__init__` — and the successfully returned Context
still holds the full secret-key instance (its secret key material
included), refuting that the secret material is cleared before creation
returns with only the public parameters retained. -/
theorem c6_secret_retained_counterexample :
    Wrapper.NativeCall.gghlite_sk_clear ∉ Wrapper.Encoded_Parent.initCalls ∧
    (Wrapper.Encoded_Parent.init 0 5 20 0).inst.secret = 2 := by
  decide

/-- Claim C6 amended: only the alternative variant (`part_000`) clears the
secret-key instance (via `gghlite_clear`, after taking the public-key
reference) before creation returns; the main `wrapper.pyx` variant never
clears it — the clear call is commented out and the instance produced by
parameter generation is stored whole in the returned Context (the encode
path uses it afterwards). -/
theorem c6_secret_lifecycle :
    Wrapper.NativeCall.gghlite_sk_clear ∉ Wrapper.Encoded_Parent.initCalls ∧
    Wrapper.NativeCall.gghlite_clear ∈ Alt.Encoded_Parent.initCalls ∧
    ∀ base kappa lamb seed : Nat,
      (Wrapper.Encoded_Parent.init base kappa lamb seed).inst =
        (Wrapper.gghlite_init lamb kappa 1 Wrapper.wrapperFlags
          (flint_randinit_seed seed 1)).1 :=
  ⟨by decide, by decide, fun _ _ _ _ => rfl⟩

/-- Claim C7 counterexample: two successive `Enc(3, 2)` calls on the same
context produce bit-identical encodings — the source passes `rerand = 0`
to the native encode, so no re-randomization takes place. -/
theorem c7_rerand_disabled_counterexample :
    ((testParent.encodeAt 3 2).2.encodeAt 3 2).1 =
      (testParent.encodeAt 3 2).1 := by
  decide

/-- Claim C7 amended: encoding construction does not re-randomize — the
source sets `rerand = 0` — so for every context, plaintext and level, two
successive encode calls yield bit-identical encodings and the context's
randomness state is not consumed. -/
theorem c7_encode_deterministic (prnt : Wrapper.Encoded_Parent) (x : Int)
    (level : Nat) :
    ((prnt.encodeAt x level).2.encodeAt x level).1 =
      (prnt.encodeAt x level).1 ∧
    (prnt.encodeAt x level).2 = prnt :=
  ⟨rfl, rfl⟩

/-- Claim C8: determinism under fixed seed — two Contexts created with
identical (baseRing, kappa, lambda, seed) — the flag set is hardcoded —
and given the same sequence of encoding calls produce bit-identical
sequences of encodings. -/
theorem c8_deterministic_under_seed (base kappa lamb seed : Nat)
    (calls : List (Int × Nat)) (ctxA ctxB : Wrapper.Encoded_Parent)
    (hA : ctxA = Wrapper.Encoded_Parent.init base kappa lamb seed)
    (hB : ctxB = Wrapper.Encoded_Parent.init base kappa lamb seed) :
    Wrapper.encodeSeq ctxA calls = Wrapper.encodeSeq ctxB calls := by
  rw [hA, hB]

/-- Witness for C8 at a concrete configuration and call sequence. -/
theorem c8_deterministic_witness :
    Wrapper.encodeSeq (Wrapper.Encoded_Parent.init 0 2 20 7)
      [(1, 0), (2, 1)] =
    Wrapper.encodeSeq (Wrapper.Encoded_Parent.init 0 2 20 7)
      [(1, 0), (2, 1)] :=
  c8_deterministic_under_seed 0 2 20 7 [(1, 0), (2, 1)] _ _ rfl rfl

/-- Claim C9: in the alternative variant (`part_000`), the
`Encoded_Element` constructor ignores its plaintext argument — the results
for any two supplied values are identical — and instead samples a fresh
random encoding at level 0 from the parent's randomness state (the
constructor takes no level argument). -/
theorem c9_alt_constructor_ignores_plaintext (prnt : Alt.Encoded_Parent)
    (x y : Int) :
    Alt.Encoded_Element.init prnt x = Alt.Encoded_Element.init prnt y ∧
    (Alt.Encoded_Element.init prnt x).1.value.lvl = 0 ∧
    (Alt.Encoded_Element.init prnt x).1.value =
      (Alt.gghlite_sample prnt.publickey 0 prnt.randstate).1 :=
  ⟨rfl, rfl, rfl⟩

/-- Claim C10: in both variants, the truthiness of an encoding
(`__nonzero__`) is the negation of the native zero-test — it returns false
exactly when the native zero-test reports an encoding of zero, so asking
"is this an encoding of zero" must be written `not bool(e)`, as
`test.sage` does. -/
theorem c10_truthiness_negates_zero_test :
    (∀ e : Wrapper.Encoded_Element,
      Wrapper.Encoded_Element.nonzero e = false ↔
        Wrapper.gghlite_enc_is_zero e.parentRef.params e.value = true) ∧
    (∀ e : Alt.Encoded_Element,
      Alt.Encoded_Element.nonzero e = false ↔
        Alt.gghlite_is_zero e.parentRef.publickey e.value = true) := by
  constructor <;> intro e <;>
    simp [Wrapper.Encoded_Element.nonzero, Alt.Encoded_Element.nonzero]
